import Mathlib

/-!
Verification development for the send2mail utility (src/send2mail.py).

The embedding below translates the program's pure logic directly from the
source.  External effects (the filesystem, the SMTP session offered by the
smtplib library) are modelled as explicit parameters: a FileSystem record of
query/read functions, and an SmtpWorld record giving the outcome of each
phase of the SMTP session.  Python exceptions relevant to the program's
handlers are modelled by the inductive type PyExc; the classification
predicate PyExc.isSMTPException records the standard-library class
hierarchy: SMTPConnectError, SMTPHeloError, SMTPAuthenticationError,
SMTPDataError and the other smtplib errors derive from smtplib.SMTPException,
while ConnectionRefusedError and TimeoutError (raised by the SMTP
constructor when the TCP connection is refused or times out) and the
program's own AuthError and ValueError do not.
-/

namespace Send2mail

/-- Exit code constant from the source module. -/
def EXIT_SUCCESS : Nat := 0

/-- Exit code constant from the source module. -/
def EXIT_ARGUMENT_ERROR : Nat := 1

/-- Exit code constant from the source module. -/
def EXIT_FILE_NOT_FOUND : Nat := 2

/-- Exit code constant from the source module. -/
def EXIT_FILE_READ_ERROR : Nat := 3

/-- Exit code constant from the source module. -/
def EXIT_ATTACHMENT_ERROR : Nat := 4

/-- Exit code constant from the source module. -/
def EXIT_SMTP_CONNECTION_ERROR : Nat := 5

/-- Exit code constant from the source module. -/
def EXIT_SMTP_AUTH_ERROR : Nat := 6

/-- Exit code constant from the source module. -/
def EXIT_SMTP_SEND_ERROR : Nat := 7

/-- Exit code constant from the source module. -/
def EXIT_INVALID_EMAIL : Nat := 8

/-- Exit code constant from the source module. -/
def EXIT_NO_FILES : Nat := 9

/-- Exit code constant from the source module. -/
def EXIT_UNKNOWN_ERROR : Nat := 99

/-- Default sender address constant from the source module. -/
def ADMIN_MAIL : String := "noreply@example.com"

/-- Python truthiness of an optional string value: None and the empty
string are falsy, every other string is truthy. -/
def pyTruthyStr : Option String → Bool
  | none => false
  | some s => !(s == "")

/-- Python str.split with an explicit one-character separator: splits at
every occurrence of the separator and keeps empty fields, so the result
always has (number of separators + 1) elements. -/
def splitOnChar (sep : Char) : List Char → List (List Char)
  | [] => [[]]
  | c :: rest =>
    if c = sep then [] :: splitOnChar sep rest
    else
      match splitOnChar sep rest with
      | h :: t => (c :: h) :: t
      | [] => [[c]]

/-- String-level wrapper of splitOnChar. -/
def pySplitChar (sep : Char) (s : String) : List String :=
  (splitOnChar sep s.data).map String.mk

/-- ASCII whitespace recognised by Python str.strip with no argument. -/
def pySpaceChar (c : Char) : Bool :=
  c = ' ' || c = '\t' || c = '\n' || c = '\r' || c = '\x0b' || c = '\x0c'

/-- Python str.strip with no argument: removes leading and trailing
whitespace. -/
def pyStrip (s : String) : String :=
  String.mk (((s.data.dropWhile pySpaceChar).reverse.dropWhile pySpaceChar).reverse)

/-- Character class of the local part in the validation regex,
the bracket expression with letters, digits, underscore, dot, plus, hyphen. -/
def localChar (c : Char) : Bool :=
  c.isAlpha || c.isDigit || c = '_' || c = '.' || c = '+' || c = '-'

/-- Character class of the first domain label in the validation regex:
letters, digits and hyphen. -/
def domainChar (c : Char) : Bool :=
  c.isAlpha || c.isDigit || c = '-'

/-- Character class of the single character required right after the
domain dot in the validation regex: letters and digits. -/
def alnumChar (c : Char) : Bool :=
  c.isAlpha || c.isDigit

/-- The part of the validation regex after the literal domain dot: one
alphanumeric character followed by the dot-plus wildcard, i.e. at least one
further arbitrary character, none of which may be a newline (the regex dot
does not match a newline). -/
def matchTail : List Char → Bool
  | [] => false
  | c :: rest => alnumChar c && !rest.isEmpty && rest.all (fun x => x ≠ '\n')

/-- The predicate used to scan up to the next occurrence of a given
character. -/
def notChar (a : Char) : Char → Bool := fun x => x ≠ a

/-- The part of the validation regex after the at sign: a nonempty run of
domain characters, a literal dot, then matchTail.  Because the domain class
does not contain the dot, a successful match necessarily splits at the
first dot, so the backtracking search of the regex engine is equivalent to
this deterministic split. -/
def matchAfterAt (l : List Char) : Bool :=
  match l.dropWhile (notChar '.') with
  | '.' :: tail =>
      (!(l.takeWhile (notChar '.')).isEmpty) &&
      (l.takeWhile (notChar '.')).all domainChar && matchTail tail
  | _ => false

/-- The whole validation regex from the start anchor: a nonempty run of
local-part characters, a literal at sign, then matchAfterAt.  The local
class does not contain the at sign, so the split at the first at sign is
forced. -/
def matchFromStart (l : List Char) : Bool :=
  match l.dropWhile (notChar '@') with
  | '@' :: tail =>
      (!(l.takeWhile (notChar '@')).isEmpty) &&
      (l.takeWhile (notChar '@')).all localChar && matchAfterAt tail
  | _ => false

/-- The dollar anchor of a Python regex also matches just before a single
trailing newline, so matching drops one final newline if present. -/
def stripTrailingNewline (l : List Char) : List Char :=
  if l.getLast? = some '\n' then l.dropLast else l

/-- validate_email from the source: re.match of the pattern
caret local-class-plus at domain-class-plus literal-dot alnum dot-plus
dollar against the address. -/
def validate_email (email : String) : Bool :=
  matchFromStart (stripTrailingNewline email.data)

/-- Modelled from the spec: the conservative character-class shape the spec
describes for addresses (local part over letters, digits, underscore, dot,
plus, hyphen; exactly one at sign; domain over letters, digits, hyphen with
at least one dot).  Used only as a comparator against validate_email. -/
def specEmailShape (s : String) : Bool :=
  match splitOnChar '@' s.data with
  | [lp, dom] =>
      (!lp.isEmpty) && lp.all localChar &&
      (!dom.isEmpty) && dom.all (fun x => domainChar x || x = '.') &&
      dom.contains '.'
  | _ => false

/-- The external world of file queries and reads.  Query functions model
path-exists, is-regular-file and read-permission checks; readText models a
UTF-8 text read and readBin a binary read, each either succeeding with the
content or failing with an error message (a raised OS exception). -/
structure FileSystem where
  fexists : String → Bool
  isfile : String → Bool
  readable : String → Bool
  readText : String → Except String String
  readBin : String → Except String (List Nat)

/-- validate_file_path from the source: exists, is a regular file, and is
readable; the three early returns of the source collapse to a
conjunction. -/
def validate_file_path (fs : FileSystem) (p : String) : Bool :=
  fs.fexists p && fs.isfile p && fs.readable p

/-- add_signature from the source: appends two newlines, the fixed
automated-message disclaimer, and a reply line naming the sender when one
is given (truthy) and the ADMIN_MAIL fallback otherwise. -/
def add_signature (body : String) (sender : Option String) : String :=
  body ++ "\n\nЭто письмо отправлено автоматически. Отвечать на него не нужно." ++
    "\nОбратный адрес для связи: " ++
    (if pyTruthyStr sender then sender.getD "" else ADMIN_MAIL)

/-- Path.name of pathlib: the final nonempty, non-dot component of the
path string. -/
def basename (p : String) : String :=
  ((pySplitChar '/' p).filter (fun s => !(s == "") && !(s == "."))).getLastD ""

/-- Python newline-join of a list of strings. -/
def joinWith (sep : String) : List String → String
  | [] => ""
  | [s] => s
  | s :: rest => s ++ sep ++ joinWith sep rest

/-- The numbered manifest lines of generate_default_email_body: for the
i-th attachment (0-based), the line "i+1. basename". -/
def manifestLines (file_paths : List String) : List String :=
  file_paths.enum.map (fun p => toString (p.1 + 1) ++ ". " ++ basename p.2)

/-- generate_default_email_body from the source: the header line, the
newline-joined numbered list of attachment basenames, then the
signature. -/
def generate_default_email_body (file_paths : List String) (sender : Option String) : String :=
  add_signature ("Вам отправлены файлы:\n" ++ joinWith "\n" (manifestLines file_paths)) sender

/-- The fall-through body source of get_email_body once the text-file
branch has been passed: the inline text argument when truthy, else the
generated manifest, each signed. -/
def bodyFallback (text : Option String) (sender : Option String) (file_paths : List String) : String :=
  if pyTruthyStr text then add_signature (text.getD "") sender
  else generate_default_email_body file_paths sender

/-- get_email_body from the source: when a body text file is given, try to
read it and sign its content; any read failure is caught, logged as a
warning and falls through to the inline text, else to the generated
manifest. -/
def get_email_body (fs : FileSystem) (text_file : Option String) (text : Option String)
    (sender : Option String) (file_paths : List String) : String :=
  match text_file with
  | some p =>
      match fs.readText p with
      | Except.ok body => add_signature body sender
      | Except.error _ => bodyFallback text sender file_paths
  | none => bodyFallback text sender file_paths

/-- The per-candidate loop shared by both branches of parse_file_paths:
strip each segment, skip blanks, validate the rest in order; the first
failing path aborts the whole resolution with EXIT_FILE_NOT_FOUND. -/
def inlineLoop (fs : FileSystem) : List String → Except Nat (List String)
  | [] => Except.ok []
  | seg :: rest =>
      if pyStrip seg == "" then inlineLoop fs rest
      else if validate_file_path fs (pyStrip seg) then
        match inlineLoop fs rest with
        | Except.ok l => Except.ok (pyStrip seg :: l)
        | Except.error e => Except.error e
      else Except.error EXIT_FILE_NOT_FOUND

/-- parse_file_paths from the source.  With a list-file path: validate the
list file, read it, run the loop over its lines, and report EXIT_NO_FILES
when no path survives.  Without one: reject an all-whitespace inline spec,
split at commas, run the loop over the segments, and report EXIT_NO_FILES
when no path survives. -/
def parse_file_paths (fs : FileSystem) (file_paths_str : String)
    (files_list_path : Option String) : List String × Nat :=
  match files_list_path with
  | some lp =>
      if !validate_file_path fs lp then ([], EXIT_FILE_NOT_FOUND)
      else
        match fs.readText lp with
        | Except.error _ => ([], EXIT_FILE_READ_ERROR)
        | Except.ok content =>
            match inlineLoop fs (pySplitChar '\n' content) with
            | Except.error e => ([], e)
            | Except.ok l => if l.isEmpty then ([], EXIT_NO_FILES) else (l, EXIT_SUCCESS)
  | none =>
      if pyStrip file_paths_str == "" then ([], EXIT_NO_FILES)
      else
        match inlineLoop fs (pySplitChar ',' file_paths_str) with
        | Except.error e => ([], e)
        | Except.ok l => if l.isEmpty then ([], EXIT_NO_FILES) else (l, EXIT_SUCCESS)

/-- The cleaned segment list of an inline attachment spec: split at commas,
strip each segment, drop the blanks.  Characterizes the output order of
parse_file_paths. -/
def cleanList (segs : List String) : List String :=
  (segs.map pyStrip).filter (fun q => !(q == ""))

/-- cleanList applied to the comma-split of an inline spec string. -/
def cleanSegments (s : String) : List String :=
  cleanList (pySplitChar ',' s)

/-- Executable discriminator of Except. -/
def exceptOk {ε α : Type} : Except ε α → Bool
  | Except.ok _ => true
  | Except.error _ => false

/-- Result of attach_files: the overall success flag and the basenames of
the parts actually embedded, in order. -/
structure AttachResult where
  success : Bool
  attached : List String

/-- attach_files from the source: for each path in order, read it and embed
it as a binary part named by its basename; a per-file failure clears the
success flag and processing continues with the remaining files. -/
def attach_files (fs : FileSystem) : List String → AttachResult
  | [] => { success := true, attached := [] }
  | p :: rest =>
      match fs.readBin p with
      | Except.ok _ =>
          { success := (attach_files fs rest).success,
            attached := basename p :: (attach_files fs rest).attached }
      | Except.error _ =>
          { success := false, attached := (attach_files fs rest).attached }

/-- Python exceptions the program's handlers distinguish.  The first five
derive from smtplib.SMTPException; connectionRefusedError and timeoutError
are the OS-level errors the smtplib constructor raises when the TCP
connection is refused or times out, and are not SMTP exceptions;
authError is the program's own AuthError; valueError is the unpacking
error of a failed tuple assignment. -/
inductive PyExc where
  | smtpConnectError
  | smtpHeloError
  | smtpAuthenticationError
  | smtpDataError
  | smtpOtherError
  | connectionRefusedError
  | timeoutError
  | authError
  | valueError
  | otherError
  deriving DecidableEq

/-- Membership in the smtplib.SMTPException class hierarchy. -/
def PyExc.isSMTPException : PyExc → Bool
  | .smtpConnectError => true
  | .smtpHeloError => true
  | .smtpAuthenticationError => true
  | .smtpDataError => true
  | .smtpOtherError => true
  | _ => false

/-- The chain of except clauses wrapping the body of send_email, in source
order: SMTPConnectError and SMTPHeloError give the connection-error code,
SMTPDataError and any other SMTPException give the send-error code, and
every remaining exception gives the unknown-error code. -/
def outerHandler (e : PyExc) : Nat :=
  if e = PyExc.smtpConnectError then EXIT_SMTP_CONNECTION_ERROR
  else if e = PyExc.smtpHeloError then EXIT_SMTP_CONNECTION_ERROR
  else if e = PyExc.smtpDataError then EXIT_SMTP_SEND_ERROR
  else if e.isSMTPException then EXIT_SMTP_SEND_ERROR
  else EXIT_UNKNOWN_ERROR

/-- Result of read_auth_from_file: the credential pair or the raised
AuthError, plus whether the file handle was closed. -/
structure AuthFileRead where
  creds : Except PyExc (String × String)
  closed : Bool

/-- read_auth_from_file from the source: read the whole file (a read error
becomes AuthError), strip surrounding whitespace, split at colons and
unpack exactly two fields (a failed unpack raises ValueError, caught and
re-raised as AuthError); the finally clause closes the handle on every
path. -/
def read_auth_from_file (content : Except String String) : AuthFileRead :=
  match content with
  | Except.error _ => { creds := Except.error PyExc.authError, closed := true }
  | Except.ok data =>
      match pySplitChar ':' (pyStrip data) with
      | [u, p] => { creds := Except.ok (u, p), closed := true }
      | _ => { creds := Except.error PyExc.authError, closed := true }

/-- Inline credential resolution in send_email: split the argument at
colons and unpack exactly two fields; any other field count raises
ValueError, which no inner handler catches. -/
def resolveInlineAuth (a : String) : Except PyExc (String × String) :=
  match pySplitChar ':' a with
  | [u, p] => Except.ok (u, p)
  | _ => Except.error PyExc.valueError

/-- Behaviour of the SMTP session for one run: the exception raised by the
constructor, by login, and by send_message, or none for success.  A quit
failure in the finally clause is only logged and never affects the result,
so it is not modelled. -/
structure SmtpWorld where
  connectExc : Option PyExc
  loginExc : Option PyExc
  sendExc : Option PyExc

/-- Observable outcome of one send_email call: the returned code, whether
the SMTP session object was created (the connection was opened), whether
login and send_message were reached, whether the finally clause had a
session to quit, and whether the credential file handle was closed. -/
structure SendOutcome where
  code : Nat
  opened : Bool
  loginAttempted : Bool
  sendAttempted : Bool
  quitAttempted : Bool
  authFileClosed : Bool

/-- send_email from the source.  The constructor runs first; on failure the
outer handler chain maps the exception and the finally clause has no
session to quit.  With truthy auth or a present auth_file, credentials are
resolved next (inline split, else file read); a resolution exception
propagates to the outer chain.  Login failures of any class return the
auth-error code from the inner handlers.  Then send_message runs; its
exceptions go to the outer chain; otherwise the call returns success.  The
finally clause always quits an opened session. -/
def send_email (w : SmtpWorld) (auth : Option String)
    (auth_file : Option (Except String String)) : SendOutcome :=
  match w.connectExc with
  | some e =>
      { code := outerHandler e, opened := false, loginAttempted := false,
        sendAttempted := false, quitAttempted := false, authFileClosed := false }
  | none =>
      if pyTruthyStr auth || auth_file.isSome then
        match
          (if pyTruthyStr auth then resolveInlineAuth (auth.getD "")
           else match auth_file with
             | some c => (read_auth_from_file c).creds
             | none => Except.error PyExc.otherError) with
        | Except.error e =>
            { code := outerHandler e, opened := true, loginAttempted := false,
              sendAttempted := false, quitAttempted := true,
              authFileClosed := !pyTruthyStr auth && auth_file.isSome }
        | Except.ok _ =>
            match w.loginExc with
            | some _ =>
                { code := EXIT_SMTP_AUTH_ERROR, opened := true, loginAttempted := true,
                  sendAttempted := false, quitAttempted := true,
                  authFileClosed := !pyTruthyStr auth && auth_file.isSome }
            | none =>
                match w.sendExc with
                | some e2 =>
                    { code := outerHandler e2, opened := true, loginAttempted := true,
                      sendAttempted := true, quitAttempted := true,
                      authFileClosed := !pyTruthyStr auth && auth_file.isSome }
                | none =>
                    { code := EXIT_SUCCESS, opened := true, loginAttempted := true,
                      sendAttempted := true, quitAttempted := true,
                      authFileClosed := !pyTruthyStr auth && auth_file.isSome }
      else
        match w.sendExc with
        | some e2 =>
            { code := outerHandler e2, opened := true, loginAttempted := false,
              sendAttempted := true, quitAttempted := true, authFileClosed := false }
        | none =>
            { code := EXIT_SUCCESS, opened := true, loginAttempted := false,
              sendAttempted := true, quitAttempted := true, authFileClosed := false }

/-- Parsed command-line arguments, after argparse.  sender is none when the
from flag is absent, some ADMIN_MAIL when given without a value, and the
raw string otherwise; auth_file holds the read outcome of the file argparse
already opened. -/
structure Args where
  sender : Option String
  toAddr : String
  subject : String
  text : Option String
  text_file : Option String
  files : Option String
  files_list : Option String
  auth : Option String
  auth_file : Option (Except String String)
  ssl : Bool

/-- Observable outcome of one whole run of main: the process exit code,
whether send_email was reached (the only network activity of the program),
and the send-phase observations. -/
structure RunOutcome where
  code : Nat
  connectAttempted : Bool
  opened : Bool
  loginAttempted : Bool
  sendAttempted : Bool

/-- A run outcome that terminated before any network activity. -/
def noNet (c : Nat) : RunOutcome :=
  { code := c, connectAttempted := false, opened := false,
    loginAttempted := false, sendAttempted := false }

/-- main from the source, after argument parsing and logging setup: the two
argument-conflict checks, sender validation only for a truthy sender,
mandatory recipient validation, file-list resolution, body and message
construction, attachment embedding, and finally the send. -/
def main (fs : FileSystem) (w : SmtpWorld) (args : Args) : RunOutcome :=
  if pyTruthyStr args.text && args.text_file.isSome then noNet EXIT_ARGUMENT_ERROR
  else if pyTruthyStr args.auth && args.auth_file.isSome then noNet EXIT_ARGUMENT_ERROR
  else if pyTruthyStr args.sender && !validate_email (args.sender.getD "") then
    noNet EXIT_INVALID_EMAIL
  else if !validate_email args.toAddr then noNet EXIT_INVALID_EMAIL
  else
    match parse_file_paths fs (args.files.getD "") args.files_list with
    | (file_paths, ec) =>
      if ec != EXIT_SUCCESS then noNet ec
      else
        let _body := get_email_body fs args.text_file args.text args.sender file_paths
        if !(attach_files fs file_paths).success then noNet EXIT_ATTACHMENT_ERROR
        else
          let so := send_email w args.auth args.auth_file
          { code := so.code, connectAttempted := true, opened := so.opened,
            loginAttempted := so.loginAttempted, sendAttempted := so.sendAttempted }

/-- Concrete filesystem: a.txt is a readable regular file whose binary read
succeeds; text reads fail everywhere. -/
def fsA : FileSystem :=
  { fexists := fun p => p == "a.txt", isfile := fun p => p == "a.txt",
    readable := fun p => p == "a.txt",
    readText := fun _ => Except.error "io",
    readBin := fun p => if p == "a.txt" then Except.ok [0] else Except.error "io" }

/-- Concrete filesystem: a.txt and b.txt are readable regular files and
both binary reads succeed. -/
def fsAB : FileSystem :=
  { fexists := fun p => p == "a.txt" || p == "b.txt",
    isfile := fun p => p == "a.txt" || p == "b.txt",
    readable := fun p => p == "a.txt" || p == "b.txt",
    readText := fun _ => Except.error "io",
    readBin := fun p => if p == "a.txt" || p == "b.txt" then Except.ok [0] else Except.error "io" }

/-- Concrete filesystem: a.txt and b.txt pass the resolution checks, but
only the binary read of b.txt succeeds (a.txt hits a read-time failure). -/
def fsMix : FileSystem :=
  { fexists := fun p => p == "a.txt" || p == "b.txt",
    isfile := fun p => p == "a.txt" || p == "b.txt",
    readable := fun p => p == "a.txt" || p == "b.txt",
    readText := fun _ => Except.error "io",
    readBin := fun p => if p == "b.txt" then Except.ok [0] else Except.error "io" }

/-- SMTP world in which every phase succeeds. -/
def wConnOk : SmtpWorld := { connectExc := none, loginExc := none, sendExc := none }

/-- SMTP world in which the TCP connection is refused. -/
def wRefused : SmtpWorld :=
  { connectExc := some PyExc.connectionRefusedError, loginExc := none, sendExc := none }

/-- SMTP world in which the connection attempt times out. -/
def wTimeout : SmtpWorld :=
  { connectExc := some PyExc.timeoutError, loginExc := none, sendExc := none }

/-- SMTP world in which the server greets with a non-220 code, so the
constructor raises SMTPConnectError. -/
def wGreet : SmtpWorld :=
  { connectExc := some PyExc.smtpConnectError, loginExc := none, sendExc := none }

/-- Baseline argument record: inline files spec a.txt, valid recipient, no
optional flags. -/
def argsBase : Args :=
  { sender := none, toAddr := "user@example.com", subject := "subj", text := none,
    text_file := none, files := some "a.txt", files_list := none,
    auth := none, auth_file := none, ssl := false }

/-- Argument record with the two-file inline spec used against fsMix. -/
def argsMix : Args :=
  { argsBase with files := some "a.txt,b.txt" }

/-! Helper lemmas about the embedded operations. -/

theorem stringMkData (s : String) : String.mk s.data = s := rfl

theorem splitOnChar_of_not_mem (sep : Char) (l : List Char) (h : sep ∉ l) :
    splitOnChar sep l = [l] := by
  induction l with
  | nil => rfl
  | cons c rest ih =>
      have hc : ¬ c = sep := fun hh => h (hh ▸ List.mem_cons_self c rest)
      have hr : sep ∉ rest := fun hm => h (List.mem_cons_of_mem _ hm)
      simp [splitOnChar, hc, ih hr]

theorem splitOnChar_mid (sep : Char) (l r : List Char) (hl : sep ∉ l) (hr : sep ∉ r) :
    splitOnChar sep (l ++ sep :: r) = [l, r] := by
  induction l with
  | nil => simp [splitOnChar, splitOnChar_of_not_mem sep r hr]
  | cons c t ih =>
      have hc : ¬ c = sep := fun hh => hl (hh ▸ List.mem_cons_self c t)
      have ht : sep ∉ t := fun hm => hl (List.mem_cons_of_mem _ hm)
      simp [splitOnChar, hc, ih ht]

theorem pySplitChar_mid (u p : String) (hu : ':' ∉ u.data) (hp : ':' ∉ p.data) :
    pySplitChar ':' (u ++ ":" ++ p) = [u, p] := by
  have hd : (u ++ ":" ++ p).data = u.data ++ ':' :: p.data := by
    simp [String.data_append]
  rw [pySplitChar, hd, splitOnChar_mid ':' u.data p.data hu hp]
  simp [stringMkData]

theorem resolveInlineAuth_pair (u p : String) (hu : ':' ∉ u.data) (hp : ':' ∉ p.data) :
    resolveInlineAuth (u ++ ":" ++ p) = Except.ok (u, p) := by
  simp [resolveInlineAuth, pySplitChar_mid u p hu hp]

theorem resolveInlineAuth_nocolon (s : String) (hs : ':' ∉ s.data) :
    resolveInlineAuth s = Except.error PyExc.valueError := by
  have hone : pySplitChar ':' s = [s] := by
    simp [pySplitChar, splitOnChar_of_not_mem ':' s.data hs, stringMkData]
  simp [resolveInlineAuth, hone]

theorem resolveInlineAuth_err (a : String) (h : (pySplitChar ':' a).length ≠ 2) :
    resolveInlineAuth a = Except.error PyExc.valueError := by
  rcases hx : pySplitChar ':' a with _ | ⟨u, t⟩
  · simp [resolveInlineAuth, hx]
  · rcases t with _ | ⟨p, t2⟩
    · simp [resolveInlineAuth, hx]
    · rcases t2 with _ | ⟨q, t3⟩
      · exact absurd (by rw [hx]; rfl) h
      · simp [resolveInlineAuth, hx]

theorem read_auth_err (c : String) (h : (pySplitChar ':' (pyStrip c)).length ≠ 2) :
    read_auth_from_file (Except.ok c) =
      { creds := Except.error PyExc.authError, closed := true } := by
  rcases hx : pySplitChar ':' (pyStrip c) with _ | ⟨u, t⟩
  · simp [read_auth_from_file, hx]
  · rcases t with _ | ⟨p, t2⟩
    · simp [read_auth_from_file, hx]
    · rcases t2 with _ | ⟨q, t3⟩
      · exact absurd (by rw [hx]; rfl) h
      · simp [read_auth_from_file, hx]

theorem send_email_auth_inline_error (wl ws : Option PyExc) (a : String) (e : PyExc)
    (ha : a ≠ "") (hres : resolveInlineAuth a = Except.error e) :
    send_email ⟨none, wl, ws⟩ (some a) none =
      { code := outerHandler e, opened := true, loginAttempted := false,
        sendAttempted := false, quitAttempted := true, authFileClosed := false } := by
  have hba : (a == "") = false := beq_eq_false_iff_ne.mpr ha
  simp [send_email, pyTruthyStr, hba, hres]

theorem send_email_auth_file_error (wl ws : Option PyExc) (c : Except String String) (e : PyExc)
    (hres : (read_auth_from_file c).creds = Except.error e) :
    send_email ⟨none, wl, ws⟩ none (some c) =
      { code := outerHandler e, opened := true, loginAttempted := false,
        sendAttempted := false, quitAttempted := true, authFileClosed := true } := by
  simp [send_email, pyTruthyStr, hres]

theorem inlineLoop_all_ok (fs : FileSystem) (segs : List String)
    (h : ∀ q ∈ cleanList segs, validate_file_path fs q = true) :
    inlineLoop fs segs = Except.ok (cleanList segs) := by
  induction segs with
  | nil => rfl
  | cons seg rest ih =>
      cases hp : (pyStrip seg == "") with
      | true =>
          have hcl : cleanList (seg :: rest) = cleanList rest := by
            simp [cleanList, List.filter_cons, hp]
          have hrest := ih (fun q hq => h q (by rw [hcl]; exact hq))
          simp [inlineLoop, hp, hcl, hrest]
      | false =>
          have hcl : cleanList (seg :: rest) = pyStrip seg :: cleanList rest := by
            simp [cleanList, List.filter_cons, hp]
          have hv : validate_file_path fs (pyStrip seg) = true :=
            h _ (by rw [hcl]; exact List.mem_cons_self _ _)
          have hrest := ih (fun q hq => h q (by rw [hcl]; exact List.mem_cons_of_mem _ hq))
          simp [inlineLoop, hp, hv, hrest, hcl]

theorem inlineLoop_bad (fs : FileSystem) (segs : List String) (bad : String)
    (hmem : bad ∈ cleanList segs) (hbad : validate_file_path fs bad = false) :
    inlineLoop fs segs = Except.error EXIT_FILE_NOT_FOUND := by
  induction segs with
  | nil => simp [cleanList] at hmem
  | cons seg rest ih =>
      cases hp : (pyStrip seg == "") with
      | true =>
          have hcl : cleanList (seg :: rest) = cleanList rest := by
            simp [cleanList, List.filter_cons, hp]
          rw [hcl] at hmem
          simp [inlineLoop, hp, ih hmem]
      | false =>
          have hcl : cleanList (seg :: rest) = pyStrip seg :: cleanList rest := by
            simp [cleanList, List.filter_cons, hp]
          rw [hcl] at hmem
          rcases List.mem_cons.mp hmem with heq | hmem2
          · rw [heq] at hbad
            simp [inlineLoop, hp, hbad]
          · cases hv : validate_file_path fs (pyStrip seg) with
            | true => simp [inlineLoop, hp, hv, ih hmem2]
            | false => simp [inlineLoop, hp, hv]

theorem joinWith_cons (sep x : String) (l : List String) (h : l ≠ []) :
    joinWith sep (x :: l) = x ++ sep ++ joinWith sep l := by
  cases l with
  | nil => exact absurd rfl h
  | cons y t => rfl

theorem joinWith_append (sep : String) (l1 l2 : List String) (h1 : l1 ≠ []) (h2 : l2 ≠ []) :
    joinWith sep (l1 ++ l2) = joinWith sep l1 ++ sep ++ joinWith sep l2 := by
  induction l1 with
  | nil => exact absurd rfl h1
  | cons x t ih =>
      cases t with
      | nil =>
          rw [List.cons_append, List.nil_append, joinWith_cons sep x l2 h2]
          simp [joinWith]
      | cons y t2 =>
          rw [List.cons_append, joinWith_cons sep x ((y :: t2) ++ l2) (by simp),
              joinWith_cons sep x (y :: t2) (by simp), ih (by simp)]
          simp [String.append_assoc]

theorem notChar_of_ne {a x : Char} (h : x ≠ a) : notChar a x = true := by
  simp [notChar, h]

theorem notChar_self (a : Char) : notChar a a = false := by
  simp [notChar]

theorem takeWhile_middle (p : Char → Bool) (l : List Char) (x : Char) (r : List Char)
    (hl : ∀ y ∈ l, p y = true) (hx : p x = false) :
    (l ++ x :: r).takeWhile p = l ∧ (l ++ x :: r).dropWhile p = x :: r := by
  induction l with
  | nil =>
      constructor
      · rw [List.nil_append, List.takeWhile_cons_of_neg (by simp [hx])]
      · rw [List.nil_append, List.dropWhile_cons_of_neg (by simp [hx])]
  | cons a t ih =>
      have ha : p a = true := hl a (List.mem_cons_self a t)
      have iht := ih (fun y hy => hl y (List.mem_cons_of_mem _ hy))
      constructor
      · rw [List.cons_append, List.takeWhile_cons_of_pos ha, iht.1]
      · rw [List.cons_append, List.dropWhile_cons_of_pos ha, iht.2]

theorem dropWhile_head_not (p : Char → Bool) (l : List Char) (a : Char) (t : List Char)
    (h : l.dropWhile p = a :: t) : p a = false := by
  induction l with
  | nil => simp at h
  | cons c r ih =>
      cases hp : p c with
      | true =>
          rw [List.dropWhile_cons_of_pos hp] at h
          exact ih h
      | false =>
          rw [List.dropWhile_cons_of_neg (by simp [hp])] at h
          injection h with h1 h2
          rw [← h1]
          exact hp

theorem dropWhile_nil_of_all (p : Char → Bool) (l : List Char) (h : ∀ x ∈ l, p x = true) :
    l.dropWhile p = [] := by
  induction l with
  | nil => rfl
  | cons c r ih =>
      rw [List.dropWhile_cons_of_pos (h c (List.mem_cons_self c r))]
      exact ih (fun x hx => h x (List.mem_cons_of_mem _ hx))

theorem tail_dropWhile_dropLast (p : Char → Bool) (l : List Char) :
    ((l.dropLast).dropWhile p).tail ⊆ (l.dropWhile p).tail := by
  induction l with
  | nil => simp
  | cons c rest ih =>
      cases rest with
      | nil => simp
      | cons r rs =>
          have hdl : (c :: r :: rs).dropLast = c :: (r :: rs).dropLast := rfl
          rw [hdl]
          cases hp : p c with
          | true =>
              rw [List.dropWhile_cons_of_pos hp, List.dropWhile_cons_of_pos hp]
              exact ih
          | false =>
              rw [List.dropWhile_cons_of_neg (by simp [hp]),
                  List.dropWhile_cons_of_neg (by simp [hp])]
              simp only [List.tail_cons]
              exact List.dropLast_subset (r :: rs)

theorem stripTrailingNewline_sub (l : List Char) : stripTrailingNewline l ⊆ l := by
  unfold stripTrailingNewline
  split
  · exact List.dropLast_subset l
  · exact fun x hx => hx

theorem strip_no_newline (l : List Char) (h : '\n' ∉ l) : stripTrailingNewline l = l := by
  unfold stripTrailingNewline
  split
  · rename_i h'
    exfalso
    obtain ⟨hl, he⟩ := List.mem_getLast?_eq_getLast (Option.mem_def.mpr h')
    exact h (by rw [he]; exact List.getLast_mem hl)
  · rfl

theorem matchFromStart_split (l tail lp : List Char)
    (hdrop : l.dropWhile (notChar '@') = '@' :: tail)
    (htake : l.takeWhile (notChar '@') = lp) :
    matchFromStart l = ((!lp.isEmpty) && lp.all localChar && matchAfterAt tail) := by
  unfold matchFromStart
  rw [hdrop, htake]
  rfl

theorem matchFromStart_nil (l : List Char) (hdrop : l.dropWhile (notChar '@') = []) :
    matchFromStart l = false := by
  unfold matchFromStart
  rw [hdrop]

theorem matchAfterAt_split (l tail d : List Char)
    (hdrop : l.dropWhile (notChar '.') = '.' :: tail)
    (htake : l.takeWhile (notChar '.') = d) :
    matchAfterAt l = ((!d.isEmpty) && d.all domainChar && matchTail tail) := by
  unfold matchAfterAt
  rw [hdrop, htake]
  rfl

theorem matchAfterAt_nil (l : List Char) (hdrop : l.dropWhile (notChar '.') = []) :
    matchAfterAt l = false := by
  unfold matchAfterAt
  rw [hdrop]

theorem matchFromStart_of_shape (lp d1 : List Char) (c : Char) (rest : List Char)
    (h1 : lp ≠ []) (h2 : ∀ x ∈ lp, localChar x = true)
    (h3 : d1 ≠ []) (h4 : ∀ x ∈ d1, domainChar x = true)
    (h5 : alnumChar c = true) (h6 : rest ≠ []) (h7 : '\n' ∉ rest) :
    matchFromStart (lp ++ '@' :: (d1 ++ '.' :: c :: rest)) = true := by
  have hlp' : ∀ y ∈ lp, notChar '@' y = true := fun y hy =>
    notChar_of_ne (fun hcon => by rw [hcon] at hy; exact absurd (h2 '@' hy) (by decide))
  have hsp := takeWhile_middle (notChar '@') lp '@' (d1 ++ '.' :: c :: rest) hlp'
    (notChar_self '@')
  rw [matchFromStart_split _ _ _ hsp.2 hsp.1]
  have hd' : ∀ y ∈ d1, notChar '.' y = true := fun y hy =>
    notChar_of_ne (fun hcon => by rw [hcon] at hy; exact absurd (h4 '.' hy) (by decide))
  have hsp2 := takeWhile_middle (notChar '.') d1 '.' (c :: rest) hd' (notChar_self '.')
  rw [matchAfterAt_split _ _ _ hsp2.2 hsp2.1]
  have hlpe : lp.isEmpty = false := by
    cases lp with
    | nil => exact absurd rfl h1
    | cons a t => rfl
  have hd1e : d1.isEmpty = false := by
    cases d1 with
    | nil => exact absurd rfl h3
    | cons a t => rfl
  have hre : rest.isEmpty = false := by
    cases rest with
    | nil => exact absurd rfl h6
    | cons a t => rfl
  have hall1 : lp.all localChar = true := List.all_eq_true.mpr h2
  have hall2 : d1.all domainChar = true := List.all_eq_true.mpr h4
  have hall3 : rest.all (fun x => x ≠ '\n') = true :=
    List.all_eq_true.mpr (fun x hx => decide_eq_true (fun hc => h7 (hc ▸ hx)))
  simp [matchTail, hlpe, hd1e, hre, hall1, hall2, hall3, h5]
  exact fun x hx hc => h7 (hc ▸ hx)

theorem matchTail_shape (l : List Char) (h : matchTail l = true) :
    ∃ c rest, l = c :: rest ∧ alnumChar c = true ∧ rest ≠ [] ∧ '\n' ∉ rest := by
  cases l with
  | nil => exact absurd h (by decide)
  | cons c rest =>
      simp only [matchTail, Bool.and_eq_true] at h
      obtain ⟨⟨hc, hne⟩, hall⟩ := h
      refine ⟨c, rest, rfl, hc, ?_, ?_⟩
      · intro hx
        rw [hx] at hne
        simp at hne
      · intro hx
        have := List.all_eq_true.mp hall '\n' hx
        simp at this

theorem matchAfterAt_shape (l : List Char) (h : matchAfterAt l = true) :
    ∃ d1 tail, l = d1 ++ '.' :: tail ∧ d1 ≠ [] ∧ (∀ x ∈ d1, domainChar x = true) ∧
      matchTail tail = true := by
  cases hAt : l.dropWhile (notChar '.') with
  | nil => rw [matchAfterAt_nil l hAt] at h; exact Bool.noConfusion h
  | cons b t =>
      have hpb : notChar '.' b = false := dropWhile_head_not _ _ _ _ hAt
      have hb : b = '.' := by
        by_contra hcon
        rw [notChar_of_ne hcon] at hpb
        exact Bool.noConfusion hpb
      subst hb
      rw [matchAfterAt_split _ _ _ hAt rfl] at h
      simp only [Bool.and_eq_true] at h
      obtain ⟨⟨hne, hall⟩, htail⟩ := h
      refine ⟨l.takeWhile (notChar '.'), t, ?_, ?_, ?_, htail⟩
      · rw [← hAt, List.takeWhile_append_dropWhile]
      · intro hx
        rw [hx] at hne
        simp at hne
      · exact fun x hx => List.all_eq_true.mp hall x hx

theorem matchFromStart_shape (l : List Char) (h : matchFromStart l = true) :
    ∃ lp tail, l = lp ++ '@' :: tail ∧ lp ≠ [] ∧ (∀ x ∈ lp, localChar x = true) ∧
      matchAfterAt tail = true := by
  cases hAt : l.dropWhile (notChar '@') with
  | nil => rw [matchFromStart_nil l hAt] at h; exact Bool.noConfusion h
  | cons b t =>
      have hpb : notChar '@' b = false := dropWhile_head_not _ _ _ _ hAt
      have hb : b = '@' := by
        by_contra hcon
        rw [notChar_of_ne hcon] at hpb
        exact Bool.noConfusion hpb
      subst hb
      rw [matchFromStart_split _ _ _ hAt rfl] at h
      simp only [Bool.and_eq_true] at h
      obtain ⟨⟨hne, hall⟩, hafter⟩ := h
      refine ⟨l.takeWhile (notChar '@'), t, ?_, ?_, ?_, hafter⟩
      · rw [← hAt, List.takeWhile_append_dropWhile]
      · intro hx
        rw [hx] at hne
        simp at hne
      · exact fun x hx => List.all_eq_true.mp hall x hx

theorem validate_email_iff (s : String) :
    validate_email s = true ↔ ∃ lp d1 c rest,
      stripTrailingNewline s.data = lp ++ '@' :: (d1 ++ '.' :: c :: rest) ∧
      lp ≠ [] ∧ (∀ x ∈ lp, localChar x = true) ∧
      d1 ≠ [] ∧ (∀ x ∈ d1, domainChar x = true) ∧
      alnumChar c = true ∧ rest ≠ [] ∧ '\n' ∉ rest := by
  constructor
  · intro h
    unfold validate_email at h
    obtain ⟨lp, tail, hdec, hlp, hlpall, hafter⟩ := matchFromStart_shape _ h
    obtain ⟨d1, tail2, hdec2, hd1, hd1all, htail⟩ := matchAfterAt_shape _ hafter
    obtain ⟨c, rest, hdec3, hc, hrest, hnl⟩ := matchTail_shape _ htail
    refine ⟨lp, d1, c, rest, ?_, hlp, hlpall, hd1, hd1all, hc, hrest, hnl⟩
    rw [hdec, hdec2, hdec3]
  · rintro ⟨lp, d1, c, rest, hdec, h1, h2, h3, h4, h5, h6, h7⟩
    unfold validate_email
    rw [hdec]
    exact matchFromStart_of_shape lp d1 c rest h1 h2 h3 h4 h5 h6 h7

theorem attach_files_attached (fs : FileSystem) (ps : List String) :
    (attach_files fs ps).attached =
      (ps.filter (fun p => exceptOk (fs.readBin p))).map basename := by
  induction ps with
  | nil => rfl
  | cons p rest ih =>
      cases hb : fs.readBin p with
      | ok v => simp [attach_files, hb, exceptOk, ih, List.filter_cons]
      | error e => simp [attach_files, hb, exceptOk, ih, List.filter_cons]

theorem attach_files_success (fs : FileSystem) (ps : List String) :
    (attach_files fs ps).success = ps.all (fun p => exceptOk (fs.readBin p)) := by
  induction ps with
  | nil => rfl
  | cons p rest ih =>
      cases hb : fs.readBin p with
      | ok v => simp [attach_files, hb, exceptOk, ih]
      | error e => simp [attach_files, hb, exceptOk]

/-! Claim theorems. -/

/-- C1: the claim says every connection-establishment failure (refused
connection, bad greeting, timeout) yields EXIT_SMTP_CONNECTION_ERROR = 5
with no authentication or send attempted.  The code maps only the SMTP
protocol-level greeting failures (SMTPConnectError, SMTPHeloError) to 5;
a refused connection or a timeout raises an OS-level exception that is not
an smtplib.SMTPException, falls into the generic handler and yields
EXIT_UNKNOWN_ERROR = 99, contradicting the program's own exit-code help
text.  No authentication or send is attempted in any of these runs, and no
quit is issued because no session object exists. -/
theorem c1_connect_exception_mapping :
    (main fsA wRefused argsBase).code = EXIT_UNKNOWN_ERROR ∧
    (main fsA wTimeout argsBase).code = EXIT_UNKNOWN_ERROR ∧
    (main fsA wRefused argsBase).code ≠ EXIT_SMTP_CONNECTION_ERROR ∧
    (main fsA wGreet argsBase).code = EXIT_SMTP_CONNECTION_ERROR ∧
    (main fsA wRefused argsBase).loginAttempted = false ∧
    (main fsA wRefused argsBase).sendAttempted = false ∧
    (send_email wRefused none none).quitAttempted = false := by
  decide

/-- C2 counterexample: the claim says inline credentials split at the first
colon only, so that "alice:se:cret" yields the pair (alice, se:cret).  The
code splits at every colon and unpacks exactly two fields, so this input
raises ValueError instead of yielding any pair. -/
theorem c2_counterexample :
    resolveInlineAuth "alice:se:cret" = Except.error PyExc.valueError ∧
    resolveInlineAuth "alice:se:cret" ≠ Except.ok ("alice", "se:cret") := by
  have h : resolveInlineAuth "alice:se:cret" = Except.error PyExc.valueError := rfl
  exact ⟨h, by rw [h]; simp⟩

/-- C2 amended: inline credential resolution splits at every colon and
requires exactly two fields, so it succeeds exactly on strings with one
colon, yielding the text before and after it; a string with no colon is an
error (and so is one with two or more colons, per the counterexample). -/
theorem c2_amended (u p s : String) (hu : ':' ∉ u.data) (hp : ':' ∉ p.data)
    (hs : ':' ∉ s.data) :
    resolveInlineAuth (u ++ ":" ++ p) = Except.ok (u, p) ∧
    resolveInlineAuth s = Except.error PyExc.valueError :=
  ⟨resolveInlineAuth_pair u p hu hp, resolveInlineAuth_nocolon s hs⟩

/-- C2 witness: the amended statement at the spec's own examples. -/
theorem c2_amended_witness :
    resolveInlineAuth ("alice" ++ ":" ++ "secret") = Except.ok ("alice", "secret") ∧
    resolveInlineAuth "alice-secret" = Except.error PyExc.valueError :=
  c2_amended "alice" "secret" "alice-secret" (by decide) (by decide) (by decide)

/-- C3 counterexample: the claim says the program never opens an SMTP
connection when the supplied credentials are malformed.  In a run with
malformed inline credentials and a reachable server, the connection is
opened (credential parsing happens inside send_email, after the
constructor) and the run returns the unknown-error code. -/
theorem c3_counterexample :
    (main fsA wConnOk { argsBase with auth := some "alicesecret" }).opened = true ∧
    (main fsA wConnOk { argsBase with auth := some "alicesecret" }).code = EXIT_UNKNOWN_ERROR := by
  decide

/-- C3 amended: malformed credentials (inline string or credential file
content that does not split into exactly two colon-separated fields) are
detected only inside send_email, after the SMTP connection has been opened;
the run then returns EXIT_UNKNOWN_ERROR = 99, no login or send is
attempted, and the opened session is quit. -/
theorem c3_amended (w : SmtpWorld) (a c : String)
    (hconn : w.connectExc = none) (ha : a ≠ "")
    (hsplit : (pySplitChar ':' a).length ≠ 2)
    (hc : (pySplitChar ':' (pyStrip c)).length ≠ 2) :
    ((send_email w (some a) none).opened = true ∧
     (send_email w (some a) none).code = EXIT_UNKNOWN_ERROR ∧
     (send_email w (some a) none).loginAttempted = false ∧
     (send_email w (some a) none).sendAttempted = false ∧
     (send_email w (some a) none).quitAttempted = true) ∧
    ((send_email w none (some (Except.ok c))).opened = true ∧
     (send_email w none (some (Except.ok c))).code = EXIT_UNKNOWN_ERROR ∧
     (send_email w none (some (Except.ok c))).loginAttempted = false ∧
     (send_email w none (some (Except.ok c))).sendAttempted = false) := by
  obtain ⟨wc, wl, ws⟩ := w
  cases wc with
  | some e => simp at hconn
  | none =>
    have h1 := send_email_auth_inline_error wl ws a PyExc.valueError ha
      (resolveInlineAuth_err a hsplit)
    have hra := read_auth_err c hc
    have hcreds : (read_auth_from_file (Except.ok c)).creds = Except.error PyExc.authError := by
      rw [hra]
    have h2 := send_email_auth_file_error wl ws (Except.ok c) PyExc.authError hcreds
    rw [h1, h2]
    exact ⟨⟨rfl, by decide, rfl, rfl, rfl⟩, rfl, by decide, rfl, rfl⟩

/-- C3 witness: the amended statement at concrete malformed credentials. -/
theorem c3_amended_witness :
    ((send_email wConnOk (some "alicesecret") none).opened = true ∧
     (send_email wConnOk (some "alicesecret") none).code = EXIT_UNKNOWN_ERROR ∧
     (send_email wConnOk (some "alicesecret") none).loginAttempted = false ∧
     (send_email wConnOk (some "alicesecret") none).sendAttempted = false ∧
     (send_email wConnOk (some "alicesecret") none).quitAttempted = true) ∧
    ((send_email wConnOk none (some (Except.ok "user:pa:ss"))).opened = true ∧
     (send_email wConnOk none (some (Except.ok "user:pa:ss"))).code = EXIT_UNKNOWN_ERROR ∧
     (send_email wConnOk none (some (Except.ok "user:pa:ss"))).loginAttempted = false ∧
     (send_email wConnOk none (some (Except.ok "user:pa:ss"))).sendAttempted = false) :=
  c3_amended wConnOk "alicesecret" "user:pa:ss" rfl (by decide) (by decide) (by decide)

/-- C4 counterexample: the claim says a supplied empty-string sender is
validated and a validation failure aborts the run with exit code 8.  The
code guards sender validation with Python truthiness, so a supplied
empty-string sender skips validation entirely and the run completes with
exit code 0 even though the empty string is not a valid address. -/
theorem c4_counterexample :
    ({ argsBase with sender := some "" } : Args).sender = some "" ∧
    validate_email "" = false ∧
    (main fsA wConnOk { argsBase with sender := some "" }).code = EXIT_SUCCESS ∧
    (main fsA wConnOk { argsBase with sender := some "" }).code ≠ EXIT_INVALID_EMAIL := by
  decide

/-- C5 counterexample: the claim says validate_email accepts no address
outside the conservative character-class shape and accepts every address of
that shape.  The regex ends in a dot-plus wildcard, so "a@b.c!" (an
exclamation mark in the domain) is accepted although it is outside the
shape, while "a@b.c" (which fits the shape, with a one-character top-level
label) is rejected. -/
theorem c5_counterexample :
    validate_email "a@b.c!" = true ∧ specEmailShape "a@b.c!" = false ∧
    validate_email "a@b.c" = false ∧ specEmailShape "a@b.c" = true := by
  decide

/-- C5 amended: validate_email accepts exactly the strings (after dropping
one trailing newline) of the form local at label dot X tail, with local a
nonempty run of local-class characters, label a nonempty run of
domain-class characters, X one alphanumeric character and tail at least one
further arbitrary non-newline character — stated as a full characterization
in both directions.  Consequently every address of the
user at sub.example.com form is accepted, and strings with no at sign, with
no dot after the first at sign, or empty are rejected. -/
theorem c5_amended (lp d1 rest : List Char) (c : Char) (s s2 s3 : String)
    (h1 : lp ≠ []) (h2 : ∀ x ∈ lp, localChar x = true)
    (h3 : d1 ≠ []) (h4 : ∀ x ∈ d1, domainChar x = true)
    (h5 : alnumChar c = true) (h6 : rest ≠ []) (h7 : '\n' ∉ rest)
    (h8 : '@' ∉ s2.data)
    (h9 : '.' ∉ ((s3.data).dropWhile (notChar '@')).tail) :
    (validate_email s = true ↔ ∃ lp2 d2 c2 rest2,
      stripTrailingNewline s.data = lp2 ++ '@' :: (d2 ++ '.' :: c2 :: rest2) ∧
      lp2 ≠ [] ∧ (∀ x ∈ lp2, localChar x = true) ∧
      d2 ≠ [] ∧ (∀ x ∈ d2, domainChar x = true) ∧
      alnumChar c2 = true ∧ rest2 ≠ [] ∧ '\n' ∉ rest2) ∧
    validate_email (String.mk (lp ++ '@' :: (d1 ++ '.' :: c :: rest))) = true ∧
    validate_email s2 = false ∧
    validate_email s3 = false ∧
    validate_email "" = false := by
  refine ⟨validate_email_iff s, ?_, ?_, ?_, by decide⟩
  · have hcn : c ≠ '\n' := by
      intro hc
      rw [hc] at h5
      exact absurd h5 (by decide)
    have hnl : '\n' ∉ (lp ++ '@' :: (d1 ++ '.' :: c :: rest)) := by
      intro hmem
      rcases List.mem_append.mp hmem with hin | hin
      · exact absurd (h2 '\n' hin) (by decide)
      · rcases List.mem_cons.mp hin with heq | hin2
        · exact absurd heq (by decide)
        · rcases List.mem_append.mp hin2 with hin3 | hin4
          · exact absurd (h4 '\n' hin3) (by decide)
          · rcases List.mem_cons.mp hin4 with heq2 | hin5
            · exact absurd heq2 (by decide)
            · rcases List.mem_cons.mp hin5 with heq3 | hin6
              · exact hcn heq3.symm
              · exact h7 hin6
    unfold validate_email
    rw [strip_no_newline ((String.mk (lp ++ '@' :: (d1 ++ '.' :: c :: rest))).data) hnl]
    exact matchFromStart_of_shape lp d1 c rest h1 h2 h3 h4 h5 h6 h7
  · have h8' : '@' ∉ stripTrailingNewline s2.data :=
      fun hm => h8 (stripTrailingNewline_sub s2.data hm)
    have hdw : (stripTrailingNewline s2.data).dropWhile (notChar '@') = [] :=
      dropWhile_nil_of_all _ _ (fun x hx => notChar_of_ne (fun hc => h8' (hc ▸ hx)))
    unfold validate_email
    exact matchFromStart_nil _ hdw
  · have hsub : ((stripTrailingNewline s3.data).dropWhile (notChar '@')).tail ⊆
        ((s3.data).dropWhile (notChar '@')).tail := by
      unfold stripTrailingNewline
      split
      · exact tail_dropWhile_dropLast (notChar '@') s3.data
      · exact fun x hx => hx
    have h9' : '.' ∉ ((stripTrailingNewline s3.data).dropWhile (notChar '@')).tail :=
      fun hm => h9 (hsub hm)
    unfold validate_email
    cases hAt : (stripTrailingNewline s3.data).dropWhile (notChar '@') with
    | nil => exact matchFromStart_nil _ hAt
    | cons a t =>
        have hpa : notChar '@' a = false := dropWhile_head_not _ _ _ _ hAt
        have ha : a = '@' := by
          by_contra hcon
          rw [notChar_of_ne hcon] at hpa
          exact Bool.noConfusion hpa
        subst ha
        rw [hAt] at h9'
        have hdot : '.' ∉ t := by simpa using h9'
        have hdw2 : t.dropWhile (notChar '.') = [] :=
          dropWhile_nil_of_all _ _ (fun x hx => notChar_of_ne (fun hc => hdot (hc ▸ hx)))
        rw [matchFromStart_split _ _ _ hAt rfl, matchAfterAt_nil t hdw2]
        simp

/-- C5 witness: the amended statement with the characterization
instantiated at a string whose local part holds a character outside the
local class (covering the only-if direction), the positive example shape,
and the no-at-sign, no-domain-dot and empty rejections. -/
theorem c5_amended_witness :
    (validate_email "a!@b.cc" = true ↔ ∃ lp2 d2 c2 rest2,
      stripTrailingNewline ("a!@b.cc" : String).data =
        lp2 ++ '@' :: (d2 ++ '.' :: c2 :: rest2) ∧
      lp2 ≠ [] ∧ (∀ x ∈ lp2, localChar x = true) ∧
      d2 ≠ [] ∧ (∀ x ∈ d2, domainChar x = true) ∧
      alnumChar c2 = true ∧ rest2 ≠ [] ∧ '\n' ∉ rest2) ∧
    validate_email (String.mk ("user".data ++ '@' ::
      ("sub".data ++ '.' :: 'e' :: "xample.com".data))) = true ∧
    validate_email "invalid.email" = false ∧
    validate_email "user@examplecom" = false ∧
    validate_email "" = false :=
  c5_amended "user".data "sub".data "xample.com".data 'e' "a!@b.cc" "invalid.email"
    "user@examplecom" (by decide) (by decide) (by decide) (by decide) (by decide)
    (by decide) (by decide) (by decide) (by decide)

/-- C9: for a non-empty attachment list, the generated manifest body is
exactly the newline-join of: the header line, the 1-based numbered basename
lines in attachment order, a blank line, the disclaimer line, and a
reply-to line carrying the explicit sender when truthy and the fixed
ADMIN_MAIL fallback otherwise; and the i-th numbered line is the number
i plus one, a dot and space, and the basename of the i-th attachment. -/
theorem c9_manifest_structure (files : List String) (sender : Option String) (i : Nat)
    (hne : files ≠ []) (hi : i < files.length) (hi2 : i < (manifestLines files).length) :
    generate_default_email_body files sender =
      joinWith "\n" ("Вам отправлены файлы:" :: (manifestLines files ++
        ["", "Это письмо отправлено автоматически. Отвечать на него не нужно.",
         "Обратный адрес для связи: " ++
           (if pyTruthyStr sender then sender.getD "" else ADMIN_MAIL)])) ∧
    (manifestLines files).get ⟨i, hi2⟩ =
      toString (i + 1) ++ ". " ++ basename (files.get ⟨i, hi⟩) := by
  constructor
  · have hlen : (manifestLines files).length = files.length := by simp [manifestLines]
    have hm : manifestLines files ≠ [] := by
      intro hx
      rw [hx] at hlen
      exact hne (List.length_eq_zero.mp hlen.symm)
    rw [joinWith_cons "\n" "Вам отправлены файлы:" (manifestLines files ++
        ["", "Это письмо отправлено автоматически. Отвечать на него не нужно.",
         "Обратный адрес для связи: " ++
           (if pyTruthyStr sender then sender.getD "" else ADMIN_MAIL)]) (by simp),
       joinWith_append "\n" (manifestLines files) _ hm (by simp)]
    have hj : joinWith "\n"
        ["", "Это письмо отправлено автоматически. Отвечать на него не нужно.",
         "Обратный адрес для связи: " ++
           (if pyTruthyStr sender then sender.getD "" else ADMIN_MAIL)] =
        "" ++ "\n" ++ ("Это письмо отправлено автоматически. Отвечать на него не нужно." ++
          "\n" ++ ("Обратный адрес для связи: " ++
            (if pyTruthyStr sender then sender.getD "" else ADMIN_MAIL))) := by
      simp [joinWith]
    rw [hj]
    have e1 : ("Вам отправлены файлы:\n" : String) = "Вам отправлены файлы:" ++ "\n" := rfl
    have e2 : ("\n\nЭто письмо отправлено автоматически. Отвечать на него не нужно." : String) =
        "\n" ++ ("" ++ ("\n" ++
          "Это письмо отправлено автоматически. Отвечать на него не нужно.")) := rfl
    have e3 : ("\nОбратный адрес для связи: " : String) =
        "\n" ++ "Обратный адрес для связи: " := rfl
    simp only [generate_default_email_body, add_signature]
    rw [e1, e2, e3]
    simp only [String.append_assoc]
  · simp [manifestLines, List.get_eq_getElem, List.getElem_map, List.getElem_enum]

/-- C9 witness: the statement at the spec's example attachment pair with no
sender given, exhibiting the numbered lines and the fixed fallback
reply-to address. -/
theorem c9_witness :
    generate_default_email_body ["report.pdf", "data.csv"] none =
      joinWith "\n" ("Вам отправлены файлы:" :: (manifestLines ["report.pdf", "data.csv"] ++
        ["", "Это письмо отправлено автоматически. Отвечать на него не нужно.",
         "Обратный адрес для связи: " ++
           (if pyTruthyStr none then (none : Option String).getD "" else ADMIN_MAIL)])) ∧
    (manifestLines ["report.pdf", "data.csv"]).get ⟨1, by decide⟩ =
      toString (1 + 1) ++ ". " ++ basename ((["report.pdf", "data.csv"] : List String).get ⟨1, by decide⟩) :=
  c9_manifest_structure ["report.pdf", "data.csv"] none 1 (by decide) (by decide) (by decide)

/-- C6: when the body text file is given but its read fails for any reason,
get_email_body does not abort: it degrades to the next body source, the
inline text when truthy, else the generated manifest, each with the
signature appended. -/
theorem c6_body_file_degrades (fs : FileSystem) (p msg : String) (text sender : Option String)
    (paths : List String) (h : fs.readText p = Except.error msg) :
    get_email_body fs (some p) text sender paths =
      (if pyTruthyStr text then add_signature (text.getD "") sender
       else generate_default_email_body paths sender) := by
  simp [get_email_body, h, bodyFallback]

/-- C6 witness: an unreadable text file with a valid inline text falls back
to the signed inline text. -/
theorem c6_witness :
    get_email_body fsA (some "t.txt") (some "hello") (some "x@y.zz") ["a.txt"] =
      (if pyTruthyStr (some "hello") then add_signature ((some "hello").getD "") (some "x@y.zz")
       else generate_default_email_body ["a.txt"] (some "x@y.zz")) :=
  c6_body_file_degrades fsA "t.txt" "io" (some "hello") (some "x@y.zz") ["a.txt"] rfl

/-- C4 amended: the recipient is always validated and a non-empty supplied
sender is validated, each failure aborting with exit code 8 before any
network activity; a supplied empty-string sender, however, is falsy and
skips validation (see the counterexample), so only truthy senders are
checked. -/
theorem c4_amended (fs : FileSystem) (w : SmtpWorld) (a1 a2 : Args) (s : String)
    (h1 : (pyTruthyStr a1.text && a1.text_file.isSome) = false)
    (h2 : (pyTruthyStr a1.auth && a1.auth_file.isSome) = false)
    (h3 : a1.sender = some s) (h4 : s ≠ "") (h5 : validate_email s = false)
    (h6 : (pyTruthyStr a2.text && a2.text_file.isSome) = false)
    (h7 : (pyTruthyStr a2.auth && a2.auth_file.isSome) = false)
    (h8 : pyTruthyStr a2.sender = true → validate_email (a2.sender.getD "") = true)
    (h9 : validate_email a2.toAddr = false) :
    (main fs w a1).code = EXIT_INVALID_EMAIL ∧
    (main fs w a1).connectAttempted = false ∧
    (main fs w a2).code = EXIT_INVALID_EMAIL ∧
    (main fs w a2).connectAttempted = false := by
  have hc1 : (pyTruthyStr a1.sender && !validate_email (a1.sender.getD "")) = true := by
    rw [h3]
    simp [pyTruthyStr, h4, h5]
  have hm1 : main fs w a1 = noNet EXIT_INVALID_EMAIL := by
    simp [main, h1, h2, hc1]
  have hc2 : (pyTruthyStr a2.sender && !validate_email (a2.sender.getD "")) = false := by
    cases hps : pyTruthyStr a2.sender with
    | false => simp
    | true => simp [h8 hps]
  have hm2 : main fs w a2 = noNet EXIT_INVALID_EMAIL := by
    simp [main, h6, h7, hc2, h9]
  rw [hm1, hm2]
  exact ⟨rfl, rfl, rfl, rfl⟩

/-- C4 witness: the amended statement at a malformed non-empty sender and
at a malformed recipient. -/
theorem c4_amended_witness :
    (main fsA wConnOk { argsBase with sender := some "bad" }).code = EXIT_INVALID_EMAIL ∧
    (main fsA wConnOk { argsBase with sender := some "bad" }).connectAttempted = false ∧
    (main fsA wConnOk { argsBase with toAddr := "invalid" }).code = EXIT_INVALID_EMAIL ∧
    (main fsA wConnOk { argsBase with toAddr := "invalid" }).connectAttempted = false :=
  c4_amended fsA wConnOk { argsBase with sender := some "bad" }
    { argsBase with toAddr := "invalid" } "bad" (by decide) (by decide) rfl (by decide)
    (by decide) (by decide) (by decide) (by decide) (by decide)

/-- C7: inline attachment resolution trims each comma segment, skips the
blanks, validates the remaining paths in input order, and the presence of
any failing path yields the empty list with EXIT_FILE_NOT_FOUND regardless
of the other paths; when every cleaned segment passes, the result is the
cleaned segment list itself, in input order, without deduplication. -/
theorem c7_inline_resolution (fs : FileSystem) (s1 s2 bad : String)
    (h1 : pyStrip s1 ≠ "")
    (h2 : ∀ q ∈ cleanSegments s1, validate_file_path fs q = true)
    (h3 : cleanSegments s1 ≠ [])
    (h4 : pyStrip s2 ≠ "")
    (h5 : bad ∈ cleanSegments s2) (h6 : validate_file_path fs bad = false) :
    parse_file_paths fs s1 none = (cleanSegments s1, EXIT_SUCCESS) ∧
    parse_file_paths fs s2 none = ([], EXIT_FILE_NOT_FOUND) := by
  constructor
  · have hb1 : (pyStrip s1 == "") = false := beq_eq_false_iff_ne.mpr h1
    have hloop : inlineLoop fs (pySplitChar ',' s1) = Except.ok (cleanSegments s1) :=
      inlineLoop_all_ok fs (pySplitChar ',' s1) h2
    have hne : (cleanSegments s1).isEmpty = false := by
      cases hx : cleanSegments s1 with
      | nil => exact absurd hx h3
      | cons a t => rfl
    simp [parse_file_paths, hb1, hloop, hne]
  · have hb2 : (pyStrip s2 == "") = false := beq_eq_false_iff_ne.mpr h4
    have hloop2 : inlineLoop fs (pySplitChar ',' s2) = Except.error EXIT_FILE_NOT_FOUND :=
      inlineLoop_bad fs (pySplitChar ',' s2) bad h5 h6
    simp [parse_file_paths, hb2, hloop2]

/-- C7 witness: the spec's example spec with a blank segment resolves to
exactly the two files in order, and a spec containing one missing path
resolves to the empty list with EXIT_FILE_NOT_FOUND despite the valid
paths around it. -/
theorem c7_witness :
    parse_file_paths fsAB "a.txt, ,b.txt" none = (["a.txt", "b.txt"], EXIT_SUCCESS) ∧
    parse_file_paths fsAB "a.txt,missing.txt,b.txt" none = ([], EXIT_FILE_NOT_FOUND) := by
  have h := c7_inline_resolution fsAB "a.txt, ,b.txt" "a.txt,missing.txt,b.txt" "missing.txt"
    (by decide) (by decide) (by decide) (by decide) (by decide) (by decide)
  exact ⟨h.1.trans (by decide), h.2⟩

/-- C8: attach_files attempts every attachment (the embedded parts are
exactly the readable files, in order, even after an earlier failure), the
call succeeds exactly when every attachment was embedded, and a run whose
attachments pass resolution but where at least one read fails exits with
EXIT_ATTACHMENT_ERROR = 4 before any connection or send attempt. -/
theorem c8_continue_on_error (fs : FileSystem) (w : SmtpWorld) (args : Args) (ps : List String)
    (h1 : (pyTruthyStr args.text && args.text_file.isSome) = false)
    (h2 : (pyTruthyStr args.auth && args.auth_file.isSome) = false)
    (h3 : (pyTruthyStr args.sender && !validate_email (args.sender.getD "")) = false)
    (h4 : validate_email args.toAddr = true)
    (h5 : parse_file_paths fs (args.files.getD "") args.files_list = (ps, EXIT_SUCCESS))
    (h6 : ps.all (fun p => exceptOk (fs.readBin p)) = false) :
    (attach_files fs ps).attached =
      (ps.filter (fun p => exceptOk (fs.readBin p))).map basename ∧
    ((attach_files fs ps).success = true ↔ ∀ p ∈ ps, exceptOk (fs.readBin p) = true) ∧
    (main fs w args).code = EXIT_ATTACHMENT_ERROR ∧
    (main fs w args).sendAttempted = false ∧
    (main fs w args).connectAttempted = false := by
  have hsucc : (attach_files fs ps).success = false := by
    rw [attach_files_success]; exact h6
  have hmain : main fs w args = noNet EXIT_ATTACHMENT_ERROR := by
    simp [main, h1, h2, h3, h4, h5, hsucc]
  refine ⟨attach_files_attached fs ps, ?_, ?_, ?_, ?_⟩
  · rw [attach_files_success]
    simp [List.all_eq_true]
  · rw [hmain]; rfl
  · rw [hmain]; rfl
  · rw [hmain]; rfl

/-- C8 witness: with a.txt failing to read and b.txt succeeding, b.txt is
still embedded, the call reports failure, and the run exits with code 4
with no send attempted. -/
theorem c8_witness :
    (attach_files fsMix ["a.txt", "b.txt"]).attached = ["b.txt"] ∧
    (attach_files fsMix ["a.txt", "b.txt"]).success = false ∧
    (main fsMix wConnOk argsMix).code = EXIT_ATTACHMENT_ERROR ∧
    (main fsMix wConnOk argsMix).sendAttempted = false := by
  have h := c8_continue_on_error fsMix wConnOk argsMix ["a.txt", "b.txt"] (by decide)
    (by decide) (by decide) (by decide) (by decide) (by decide)
  exact ⟨h.1.trans (by decide), by decide, h.2.2.1, h.2.2.2.1⟩

/-- C10: a credential file whose stripped content does not split into
exactly two colon-separated fields makes read_auth_from_file raise
AuthError; inside send_email this reaches only the generic exception
handler, so the call returns EXIT_UNKNOWN_ERROR = 99 (not the SMTP-auth
code 6 and not the argument-error code 1) while the credential file handle
is closed by the finally clause. -/
theorem c10_authfile_format_gives_unknown (w : SmtpWorld) (c : String)
    (hconn : w.connectExc = none)
    (hc : (pySplitChar ':' (pyStrip c)).length ≠ 2) :
    (read_auth_from_file (Except.ok c)).creds = Except.error PyExc.authError ∧
    (read_auth_from_file (Except.ok c)).closed = true ∧
    (send_email w none (some (Except.ok c))).code = EXIT_UNKNOWN_ERROR ∧
    (send_email w none (some (Except.ok c))).code ≠ EXIT_SMTP_AUTH_ERROR ∧
    (send_email w none (some (Except.ok c))).code ≠ EXIT_ARGUMENT_ERROR ∧
    (send_email w none (some (Except.ok c))).authFileClosed = true := by
  obtain ⟨wc, wl, ws⟩ := w
  cases wc with
  | some e => simp at hconn
  | none =>
    have hra := read_auth_err c hc
    have hcreds : (read_auth_from_file (Except.ok c)).creds = Except.error PyExc.authError := by
      rw [hra]
    have hclosed : (read_auth_from_file (Except.ok c)).closed = true := by rw [hra]
    have hse := send_email_auth_file_error wl ws (Except.ok c) PyExc.authError hcreds
    rw [hse]
    exact ⟨hcreds, hclosed, by decide, by decide, by decide, rfl⟩

/-- C10 witness: the statement at a one-field credential file content. -/
theorem c10_witness :
    (read_auth_from_file (Except.ok "adminsecret")).creds = Except.error PyExc.authError ∧
    (read_auth_from_file (Except.ok "adminsecret")).closed = true ∧
    (send_email wConnOk none (some (Except.ok "adminsecret"))).code = EXIT_UNKNOWN_ERROR ∧
    (send_email wConnOk none (some (Except.ok "adminsecret"))).code ≠ EXIT_SMTP_AUTH_ERROR ∧
    (send_email wConnOk none (some (Except.ok "adminsecret"))).code ≠ EXIT_ARGUMENT_ERROR ∧
    (send_email wConnOk none (some (Except.ok "adminsecret"))).authFileClosed = true :=
  c10_authfile_format_gives_unknown wConnOk "adminsecret" rfl (by decide)

end Send2mail
